import Mathlib

/-!
Verification of the language-switcher agent (src/mainn.py).

The agent holds three static registries (display names, Deepgram recognizer
codes, greetings), a mutable current language, and optional recognizer (stt)
and synthesizer (tts) handles.  `_switch_language` either acknowledges that
the language is already active, or updates the handles, commits the new
language and emits a greeting.  We embed the agent state explicitly, record
every observable side effect as an event in order, and model a Python
KeyError on dict subscription as an `error` field carrying the missing key.
-/

/-- Observable side effects of the agent, in the order they are performed.
`sttUpdate l` is `self.stt.update_options(language=l)`, `ttsUpdate l` is
`self.tts.update_options(language=l)`, `commit c` is the assignment
`self.current_language = c`, and `say t` is `await self.session.say(t)`. -/
inductive Event where
  | sttUpdate (language : String)
  | ttsUpdate (language : String)
  | commit (code : String)
  | say (text : String)
deriving DecidableEq, Repr

/-- Mutable state of one `LanguageSwitcherAgent` instance: the current
language, and the recognizer / synthesizer handles.  A handle is `none` when
absent (Python falsy) and `some l` when attached with active language `l`. -/
structure AgentState where
  current_language : String
  stt : Option String
  tts : Option String
deriving DecidableEq, Repr

/-- Result of one call: the state afterwards, the events emitted in order,
and `some k` when a Python `KeyError` with key `k` was raised (every event
listed was already performed before the error). -/
structure SwitchResult where
  state : AgentState
  events : List Event
  error : Option String
deriving DecidableEq, Repr

/-- The `self.language_names` dict from `__init__`. -/
def language_names : List (String × String) :=
  [("en", "English"),
   ("es", "Spanish"),
   ("fr", "French"),
   ("de", "German"),
   ("it", "Italian"),
   ("ta", "Tamil")]

/-- The `self.deepgram_codes` dict from `__init__`. -/
def deepgram_codes : List (String × String) :=
  [("en", "en"),
   ("es", "es"),
   ("fr", "fr-CA"),
   ("de", "de"),
   ("it", "it"),
   ("ta", "ta")]

/-- The `self.greetings` dict from `__init__`. -/
def greetings : List (String × String) :=
  [("en", "Hello! I\x27m now speaking in English. How can I help you today?"),
   ("es", "¡Hola! Ahora estoy hablando en español. ¿Cómo puedo ayudarte hoy?"),
   ("fr", "Bonjour ! Je parle maintenant en français. Comment puis-je vous aider aujourd\x27hui ?"),
   ("de", "Hallo! Ich spreche jetzt Deutsch. Wie kann ich Ihnen heute helfen?"),
   ("it", "Ciao! Ora sto parlando in italiano. Come posso aiutarti oggi?"),
   ("ta", "வணக்கம்! நான் இப்போது தமிழில் பேசுகிறேன். இன்று நான் உங்களுக்கு எவ்வாறு உதவ முடியும்?")]

/-- The closed set of supported language codes. -/
def supported : List String := ["en", "es", "fr", "de", "it", "ta"]

/-- State right after `__init__`: default language "en", recognizer built
with `language="en"`, synthesizer built with `language="en"`. -/
def initialState : AgentState :=
  { current_language := "en", stt := some "en", tts := some "en" }

/-- The fixed utterance of `on_enter`. -/
def enter_announcement : String :=
  "Hi there! I can speak in English, Spanish, French, German, " ++
  "Italian, or Tamil. Just ask me to switch to one of them. " ++
  "Which language would you like me to use?"

/-- `on_enter`: says the capability announcement; the state is untouched. -/
def on_enter (s : AgentState) : AgentState × List Event :=
  (s, [Event.say enter_announcement])

/-- `_switch_language(code)`.  If `code` equals the current language, say
the already-speaking message (`self.language_names[code]` may raise).
Otherwise: if the stt handle is present, update it with
`self.deepgram_codes.get(code, code)`; if the tts handle is present, update
it with the bare `code`; commit `self.current_language = code`; then say
`self.greetings[code]` (which may raise after everything above happened). -/
def switch_language (s : AgentState) (code : String) : SwitchResult :=
  if code == s.current_language then
    match language_names.lookup code with
    | some name =>
        { state := s,
          events := [Event.say ("I\x27m already speaking in " ++ name ++ ".")],
          error := none }
    | none => { state := s, events := [], error := some code }
  else
    let step1 : AgentState × List Event :=
      match s.stt with
      | some _ =>
          let new_code := (deepgram_codes.lookup code).getD code
          ({ s with stt := some new_code }, [Event.sttUpdate new_code])
      | none => (s, [])
    let step2 : AgentState × List Event :=
      match step1.1.tts with
      | some _ => ({ step1.1 with tts := some code }, [Event.ttsUpdate code])
      | none => (step1.1, [])
    let s3 : AgentState := { step2.1 with current_language := code }
    match greetings.lookup code with
    | some g =>
        { state := s3,
          events := step1.2 ++ step2.2 ++ [Event.commit code, Event.say g],
          error := none }
    | none =>
        { state := s3,
          events := step1.2 ++ step2.2 ++ [Event.commit code],
          error := some code }

/-- `switch_to_english` function tool: call-through with the constant "en". -/
def switch_to_english (s : AgentState) : SwitchResult := switch_language s "en"

/-- `switch_to_spanish` function tool: call-through with the constant "es". -/
def switch_to_spanish (s : AgentState) : SwitchResult := switch_language s "es"

/-- `switch_to_french` function tool: call-through with the constant "fr". -/
def switch_to_french (s : AgentState) : SwitchResult := switch_language s "fr"

/-- `switch_to_german` function tool: call-through with the constant "de". -/
def switch_to_german (s : AgentState) : SwitchResult := switch_language s "de"

/-- `switch_to_italian` function tool: call-through with the constant "it". -/
def switch_to_italian (s : AgentState) : SwitchResult := switch_language s "it"

/-- `switch_to_tamil` function tool: call-through with the constant "ta". -/
def switch_to_tamil (s : AgentState) : SwitchResult := switch_language s "ta"

/-- The six intent bindings exposed to the LLM dispatcher. -/
inductive Binding where
  | toEnglish | toSpanish | toFrench | toGerman | toItalian | toTamil
deriving DecidableEq, Repr

/-- The fixed constant code each binding passes to the controller. -/
def bindingCode : Binding → String
  | .toEnglish => "en"
  | .toSpanish => "es"
  | .toFrench => "fr"
  | .toGerman => "de"
  | .toItalian => "it"
  | .toTamil => "ta"

/-- State after invoking one binding. -/
def applyBinding (s : AgentState) : Binding → AgentState
  | .toEnglish => (switch_to_english s).state
  | .toSpanish => (switch_to_spanish s).state
  | .toFrench => (switch_to_french s).state
  | .toGerman => (switch_to_german s).state
  | .toItalian => (switch_to_italian s).state
  | .toTamil => (switch_to_tamil s).state

/-- State after running a sequence of bindings. -/
def runBindings (s : AgentState) : List Binding → AgentState
  | [] => s
  | b :: bs => runBindings (applyBinding s b) bs

/-- C3: starting in state "en" with both handles attached, switching to
"fr" sets the recognizer language to the Deepgram-specific "fr-CA", the
synthesizer language to the bare "fr", commits state "fr", and emits the
registered French greeting, in that order, with no error. -/
theorem switch_en_to_fr :
    switch_language initialState "fr" =
      { state := { current_language := "fr", stt := some "fr-CA", tts := some "fr" },
        events := [Event.sttUpdate "fr-CA", Event.ttsUpdate "fr", Event.commit "fr",
                   Event.say "Bonjour ! Je parle maintenant en français. Comment puis-je vous aider aujourd\x27hui ?"],
        error := none } ∧
    greetings.lookup "fr" =
      some "Bonjour ! Je parle maintenant en français. Comment puis-je vous aider aujourd\x27hui ?" ∧
    deepgram_codes.lookup "fr" = some "fr-CA" := by
  refine ⟨?_, by decide, by decide⟩
  decide

/-- After any call, the current language equals the requested code: the
same-code branch keeps it (it already equals `code`) and the other branch
commits it, whether or not the greeting lookup succeeds. -/
theorem switch_current (s : AgentState) (code : String) :
    (switch_language s code).state.current_language = code := by
  by_cases h : (code == s.current_language) = true
  · have heq : code = s.current_language := by simpa using h
    subst heq
    cases hlk : language_names.lookup s.current_language <;>
      simp [switch_language, hlk]
  · have hbe : (code == s.current_language) = false := by simpa using h
    cases hstt : s.stt <;> cases htts : s.tts <;>
      cases hlk : greetings.lookup code <;>
      simp [switch_language, hbe, hstt, htts, hlk]

/-- The same-code branch: the state is returned untouched with exactly the
already-speaking acknowledgment. -/
theorem switch_same_eq (s : AgentState) (code : String) (name : String)
    (heq : code = s.current_language)
    (hlk : language_names.lookup code = some name) :
    switch_language s code =
      { state := s,
        events := [Event.say ("I\x27m already speaking in " ++ name ++ ".")],
        error := none } := by
  have hbe : (code == s.current_language) = true := by simp [heq]
  simp [switch_language, hbe, hlk]

/-- The different-code branch with both handles attached and a registered
greeting: recognizer update, synthesizer update, commit, greeting. -/
theorem switch_diff_eq (s : AgentState) (code g a b : String)
    (hne : code ≠ s.current_language)
    (hstt : s.stt = some a) (htts : s.tts = some b)
    (hg : greetings.lookup code = some g) :
    switch_language s code =
      { state := { current_language := code,
                   stt := some ((deepgram_codes.lookup code).getD code),
                   tts := some code },
        events := [Event.sttUpdate ((deepgram_codes.lookup code).getD code),
                   Event.ttsUpdate code, Event.commit code, Event.say g],
        error := none } := by
  have hbe : (code == s.current_language) = false := beq_eq_false_iff_ne.mpr hne
  simp [switch_language, hbe, hstt, htts, hg]

/-- Unsupported codes miss every registry. -/
theorem lookup_none_of_unsupported (code : String) (h : code ∉ supported) :
    language_names.lookup code = none ∧ deepgram_codes.lookup code = none ∧
    greetings.lookup code = none := by
  simp [supported] at h
  obtain ⟨h1, h2, h3, h4, h5, h6⟩ := h
  have e1 : (code == "en") = false := beq_eq_false_iff_ne.mpr h1
  have e2 : (code == "es") = false := beq_eq_false_iff_ne.mpr h2
  have e3 : (code == "fr") = false := beq_eq_false_iff_ne.mpr h3
  have e4 : (code == "de") = false := beq_eq_false_iff_ne.mpr h4
  have e5 : (code == "it") = false := beq_eq_false_iff_ne.mpr h5
  have e6 : (code == "ta") = false := beq_eq_false_iff_ne.mpr h6
  simp [language_names, deepgram_codes, greetings, List.lookup,
        e1, e2, e3, e4, e5, e6]

/-- C1: for a supported code different from the current language, with both
handles attached, the call performs exactly: recognizer update (with the
registry recognizer code), then synthesizer update, then commit of the new
current language, then exactly one greeting, the one registered for the
code, and raises no error. -/
theorem switch_diff_order (s : AgentState) (code : String)
    (hsup : code ∈ supported) (hne : code ≠ s.current_language)
    (a b : String) (hstt : s.stt = some a) (htts : s.tts = some b) :
    ∃ g, greetings.lookup code = some g ∧
      switch_language s code =
        { state := { current_language := code,
                     stt := some ((deepgram_codes.lookup code).getD code),
                     tts := some code },
          events := [Event.sttUpdate ((deepgram_codes.lookup code).getD code),
                     Event.ttsUpdate code, Event.commit code, Event.say g],
          error := none } := by
  simp [supported] at hsup
  rcases hsup with rfl | rfl | rfl | rfl | rfl | rfl <;>
    exact ⟨_, rfl, switch_diff_eq s _ _ a b hne hstt htts rfl⟩

/-- C1 witness: switching the fresh session to Spanish. -/
theorem switch_diff_order_witness :
    ∃ g, greetings.lookup "es" = some g ∧
      switch_language initialState "es" =
        { state := { current_language := "es",
                     stt := some ((deepgram_codes.lookup "es").getD "es"),
                     tts := some "es" },
          events := [Event.sttUpdate ((deepgram_codes.lookup "es").getD "es"),
                     Event.ttsUpdate "es", Event.commit "es", Event.say g],
          error := none } :=
  switch_diff_order initialState "es" (by decide) (by decide) "en" "en" rfl rfl

/-- C2: for a supported code equal to the current language, the state is
unchanged, no recognizer or synthesizer update is issued, and exactly the
already-speaking message with the registered display name is emitted. -/
theorem switch_same_ack (s : AgentState) (code : String)
    (hsup : code ∈ supported) (heq : code = s.current_language) :
    ∃ name, language_names.lookup code = some name ∧
      switch_language s code =
        { state := s,
          events := [Event.say ("I\x27m already speaking in " ++ name ++ ".")],
          error := none } := by
  simp [supported] at hsup
  rcases hsup with rfl | rfl | rfl | rfl | rfl | rfl <;>
    exact ⟨_, rfl, switch_same_eq s _ _ heq rfl⟩

/-- C2 witness: asking for French while already in French. -/
theorem switch_same_ack_witness :
    ∃ name, language_names.lookup "fr" = some name ∧
      switch_language { current_language := "fr", stt := some "fr-CA", tts := some "fr" } "fr" =
        { state := { current_language := "fr", stt := some "fr-CA", tts := some "fr" },
          events := [Event.say ("I\x27m already speaking in " ++ name ++ ".")],
          error := none } :=
  switch_same_ack { current_language := "fr", stt := some "fr-CA", tts := some "fr" } "fr"
    (by decide) rfl

/-- The different-code branch with a registered greeting and arbitrary
handle presence: the recognizer / synthesizer updates happen exactly when
the corresponding handle is present, then commit, then the greeting. -/
theorem switch_diff_general (s : AgentState) (code g : String)
    (hne : code ≠ s.current_language)
    (hg : greetings.lookup code = some g) :
    (switch_language s code).error = none ∧
    (switch_language s code).state.current_language = code ∧
    (switch_language s code).events =
      (match s.stt with
       | some _ => [Event.sttUpdate ((deepgram_codes.lookup code).getD code)]
       | none => ([] : List Event)) ++
      (match s.tts with
       | some _ => [Event.ttsUpdate code]
       | none => ([] : List Event)) ++
      [Event.commit code, Event.say g] := by
  have hbe : (code == s.current_language) = false := beq_eq_false_iff_ne.mpr hne
  cases hstt : s.stt <;> cases htts : s.tts <;>
    simp [switch_language, hbe, hstt, htts, hg]

/-- C5: switchTo is idempotent.  After one call the current language is the
requested code; a second call with the same code leaves the state exactly as
it was and emits only the already-speaking message with the registered
display name, not the greeting. -/
theorem switch_idempotent (s : AgentState) (code : String)
    (hsup : code ∈ supported) :
    (switch_language s code).state.current_language = code ∧
    (switch_language (switch_language s code).state code).state.current_language = code ∧
    ∃ name, language_names.lookup code = some name ∧
      switch_language (switch_language s code).state code =
        { state := (switch_language s code).state,
          events := [Event.say ("I\x27m already speaking in " ++ name ++ ".")],
          error := none } := by
  have h1 : (switch_language s code).state.current_language = code :=
    switch_current s code
  refine ⟨h1, switch_current _ _, ?_⟩
  simp [supported] at hsup
  rcases hsup with rfl | rfl | rfl | rfl | rfl | rfl <;>
    exact ⟨_, rfl, switch_same_eq _ _ _ h1.symm rfl⟩

/-- C5 witness: switching the fresh session to Spanish twice. -/
theorem switch_idempotent_witness :
    (switch_language initialState "es").state.current_language = "es" ∧
    (switch_language (switch_language initialState "es").state "es").state.current_language = "es" ∧
    ∃ name, language_names.lookup "es" = some name ∧
      switch_language (switch_language initialState "es").state "es" =
        { state := (switch_language initialState "es").state,
          events := [Event.say ("I\x27m already speaking in " ++ name ++ ".")],
          error := none } :=
  switch_idempotent initialState "es" (by decide)

/-- C6: for a supported code different from the current language, an absent
recognizer or synthesizer handle only skips the corresponding update event;
the call still commits the new current language, emits the registered
greeting, and raises no error. -/
theorem switch_skip_absent (s : AgentState) (code : String)
    (hsup : code ∈ supported) (hne : code ≠ s.current_language) :
    ∃ g, greetings.lookup code = some g ∧
      (switch_language s code).error = none ∧
      (switch_language s code).state.current_language = code ∧
      (switch_language s code).events =
        (match s.stt with
         | some _ => [Event.sttUpdate ((deepgram_codes.lookup code).getD code)]
         | none => ([] : List Event)) ++
        (match s.tts with
         | some _ => [Event.ttsUpdate code]
         | none => ([] : List Event)) ++
        [Event.commit code, Event.say g] := by
  simp [supported] at hsup
  rcases hsup with rfl | rfl | rfl | rfl | rfl | rfl <;>
    exact ⟨_, rfl, switch_diff_general s _ _ hne rfl⟩

/-- C6 witness: switching to Spanish with both handles absent. -/
theorem switch_skip_absent_witness :
    ∃ g, greetings.lookup "es" = some g ∧
      (switch_language { current_language := "en", stt := none, tts := none } "es").error = none ∧
      (switch_language { current_language := "en", stt := none, tts := none } "es").state.current_language = "es" ∧
      (switch_language { current_language := "en", stt := none, tts := none } "es").events =
        (match ({ current_language := "en", stt := none, tts := none } : AgentState).stt with
         | some _ => [Event.sttUpdate ((deepgram_codes.lookup "es").getD "es")]
         | none => ([] : List Event)) ++
        (match ({ current_language := "en", stt := none, tts := none } : AgentState).tts with
         | some _ => [Event.ttsUpdate "es"]
         | none => ([] : List Event)) ++
        [Event.commit "es", Event.say g] :=
  switch_skip_absent { current_language := "en", stt := none, tts := none } "es"
    (by decide) (by decide)

/-- C7: the registry is complete: the key lists of the display-name map,
the recognizer-code map and the greeting map all equal the six supported
codes, and every registered value is non-empty. -/
theorem registry_total :
    language_names.map Prod.fst = supported ∧
    deepgram_codes.map Prod.fst = supported ∧
    greetings.map Prod.fst = supported ∧
    (∀ p ∈ language_names, p.2 ≠ "") ∧
    (∀ p ∈ deepgram_codes, p.2 ≠ "") ∧
    (∀ p ∈ greetings, p.2 ≠ "") := by decide

set_option maxRecDepth 8192 in
/-- C8: the lifecycle hook returns the state unchanged and emits exactly
the fixed capability announcement, which contains each of the six display
names; run on the fresh session state the current language is still "en". -/
theorem on_enter_frame :
    (∀ s, on_enter s = (s, [Event.say enter_announcement])) ∧
    (on_enter initialState).1.current_language = "en" ∧
    (∀ p ∈ language_names, p.2.toList <:+: enter_announcement.toList) := by
  exact ⟨fun s => rfl, rfl, by decide⟩

/-- One binding moves the current language to that binding's constant. -/
theorem applyBinding_current (s : AgentState) (b : Binding) :
    (applyBinding s b).current_language = bindingCode b := by
  cases b <;>
    simp [applyBinding, bindingCode, switch_to_english, switch_to_spanish,
          switch_to_french, switch_to_german, switch_to_italian,
          switch_to_tamil, switch_current]

/-- Running bindings preserves membership of the current language in the
supported set. -/
theorem runBindings_mem (bs : List Binding) :
    ∀ s : AgentState, s.current_language ∈ supported →
      (runBindings s bs).current_language ∈ supported := by
  induction bs with
  | nil => exact fun s h => h
  | cons b bs ih =>
      intro s h
      simp only [runBindings]
      refine ih _ ?_
      rw [applyBinding_current]
      cases b <;> decide

/-- C9: through the six intent bindings the current language stays in the
closed set: every binding passes one of the six constants, the initial
language is "en", and any binding sequence from the initial state leaves the
current language in the supported set. -/
theorem bindings_closed_invariant :
    (∀ b, bindingCode b ∈ supported) ∧
    initialState.current_language = "en" ∧
    ∀ bs : List Binding,
      (runBindings initialState bs).current_language ∈ supported := by
  exact ⟨fun b => by cases b <;> decide, rfl,
         fun bs => runBindings_mem bs initialState (by decide)⟩

/-- C4 counterexample: invoked with the unsupported code "xx" from the
fresh state, the controller does raise (KeyError "xx"), but not fast: the
recognizer was already updated with the silently defaulted bare code "xx",
the synthesizer updated, and the state committed to "xx" before the error. -/
theorem switch_unsupported_not_fail_fast :
    (switch_language initialState "xx").error = some "xx" ∧
    (switch_language initialState "xx").state.current_language = "xx" ∧
    (switch_language initialState "xx").events =
      [Event.sttUpdate "xx", Event.ttsUpdate "xx", Event.commit "xx"] := by
  decide

/-- C4 amended: invoked with a code outside the supported set, the
controller always ends in a raised KeyError carrying that code (from the
display-name lookup when the code equals the current language, from the
greeting lookup otherwise), rather than completing silently. -/
theorem switch_unsupported_raises (s : AgentState) (code : String)
    (h : code ∉ supported) :
    (switch_language s code).error = some code := by
  obtain ⟨hn, hd, hg⟩ := lookup_none_of_unsupported code h
  by_cases hbe : (code == s.current_language) = true
  · simp [switch_language, hbe, hn]
  · have hbe2 : (code == s.current_language) = false := by simpa using hbe
    cases hstt : s.stt <;> cases htts : s.tts <;>
      simp [switch_language, hbe2, hstt, htts, hg]

/-- C4 witness: the unsupported code "zz" raises from the fresh state. -/
theorem switch_unsupported_raises_witness :
    (switch_language initialState "zz").error = some "zz" :=
  switch_unsupported_raises initialState "zz" (by decide)

/-- C10: for a code registered in no map and different from the current
language, with both handles present, the recognizer is updated with the
silently defaulted bare code, the synthesizer is updated, the state is
committed to the unsupported code, and only then the greeting lookup raises
(KeyError with that code); nothing is rolled back. -/
theorem switch_unregistered_commits (s : AgentState) (code a b : String)
    (hg : greetings.lookup code = none)
    (hd : deepgram_codes.lookup code = none)
    (hne : code ≠ s.current_language)
    (hstt : s.stt = some a) (htts : s.tts = some b) :
    switch_language s code =
      { state := { current_language := code, stt := some code, tts := some code },
        events := [Event.sttUpdate code, Event.ttsUpdate code, Event.commit code],
        error := some code } := by
  have hbe : (code == s.current_language) = false := beq_eq_false_iff_ne.mpr hne
  simp [switch_language, hbe, hstt, htts, hg, hd]

/-- C10 witness: the unregistered code "xy" from the fresh state. -/
theorem switch_unregistered_commits_witness :
    switch_language initialState "xy" =
      { state := { current_language := "xy", stt := some "xy", tts := some "xy" },
        events := [Event.sttUpdate "xy", Event.ttsUpdate "xy", Event.commit "xy"],
        error := some "xy" } :=
  switch_unregistered_commits initialState "xy" "en" "en"
    (by decide) (by decide) (by decide) rfl rfl
